import Mathlib

/-!
Verification of the kaong-ripe-detection frontend JavaScript
(`static/script.js`, streaming version, and the statistics page script).

The JavaScript is shallowly embedded: DOM/canvas side effects become lists
of draw commands or explicit state records, JS numbers become `ℚ` (scores,
coordinates) or `ℤ` (millisecond timestamps), nullable handles become
`Option`, and each handler becomes a total Lean function on that state.
-/

/-- A detection result item as produced by the server and consumed by
`drawDetections` (`static/script.js`): a label, a confidence score, an
absolute pixel box `[x1, y1, x2, y2]`, and an optional normalized
`box_relative` list. -/
structure Detection where
  label : String
  score : ℚ
  box : ℚ × ℚ × ℚ × ℚ
  box_relative : Option (List ℚ)
deriving DecidableEq

/-- Canvas drawing commands issued by the renderer.  `clearRect` and
`drawImageVideo` model `ctx.clearRect` and `ctx.drawImage(video, ...)`;
`strokeRect` and `fillText` model the box and label drawing. -/
inductive DrawCmd where
  | clearRect (x y w h : ℚ)
  | drawImageVideo (x y w h : ℚ)
  | strokeRect (x y w h : ℚ)
  | fillText (text : String) (x y : ℚ)
deriving DecidableEq

/-- Model of JavaScript `Number.prototype.toFixed(1)` on a non-negative
rational: round `q * 10` to the nearest integer and print one decimal. -/
def toFixed1 (q : ℚ) : String :=
  let n : ℤ := round (q * 10)
  toString (n / 10) ++ "." ++ toString (n % 10)

/-- The label text built in `drawDetections`
(`static/script.js` line 540): `label` followed by the percentage with one
decimal in parentheses. -/
def labelText (d : Detection) : String :=
  d.label ++ " (" ++ toFixed1 (d.score * 100) ++ "%)"

/-- The condition `detection.box_relative && detection.box_relative.length === 4`
of `static/script.js` line 523. -/
def hasRelBox (d : Detection) : Bool :=
  match d.box_relative with
  | some (_ :: _ :: _ :: _ :: []) => true
  | _ => false

/-- Body of the `forEach` loop of the streaming `drawDetections`
(`static/script.js` lines 521-549), for one detection at the current canvas
size `W × H`.  When `box_relative` has exactly 4 entries the box is each
relative coordinate times the canvas dimension and the label is drawn only
when `score > 0.1`; otherwise the absolute `box` is stroked and no label is
drawn. -/
def drawDetection (W H : ℚ) (d : Detection) : List DrawCmd :=
  match d.box_relative with
  | some (rel_x1 :: rel_y1 :: rel_x2 :: rel_y2 :: []) =>
    let x1 := rel_x1 * W
    let y1 := rel_y1 * H
    let x2 := rel_x2 * W
    let y2 := rel_y2 * H
    DrawCmd.strokeRect x1 y1 (x2 - x1) (y2 - y1) ::
      (if d.score > 1 / 10 then [DrawCmd.fillText (labelText d) x1 (y1 - 5)] else [])
  | _ =>
    match d.box with
    | (x1, y1, x2, y2) => [DrawCmd.strokeRect x1 y1 (x2 - x1) (y2 - y1)]

/-- The streaming `drawDetections` (`static/script.js` lines 505-551):
clear the canvas, redraw the video frame, then render each detection in
order with `drawDetection`. -/
def drawDetections (W H : ℚ) (dets : List Detection) : List DrawCmd :=
  DrawCmd.clearRect 0 0 W H :: DrawCmd.drawImageVideo 0 0 W H ::
    dets.foldr (fun d acc => drawDetection W H d ++ acc) []

/-- Whether a command is a text-label draw. -/
def isFillText : DrawCmd → Bool
  | DrawCmd.fillText _ _ _ => true
  | _ => false

/-- Whether rendering one detection draws its text label. -/
def labelDrawn (W H : ℚ) (d : Detection) : Bool :=
  (drawDetection W H d).any isFillText

/-- The corners `(x1, y1, x2, y2)` of the first stroked rectangle of a
command list (`strokeRect` receives `(x, y, w, h)`). -/
def cornersOf : List DrawCmd → Option (ℚ × ℚ × ℚ × ℚ)
  | DrawCmd.strokeRect x y w h :: _ => some (x, y, x + w, y + h)
  | _ => none

/-- A detection with only absolute box coordinates and a high score. -/
def dAbs : Detection :=
  { label := "Ripe", score := 1 / 2, box := (10, 10, 20, 20), box_relative := none }

/-- A detection with relative coordinates and score `0.1001`. -/
def dRelHi : Detection :=
  { label := "Ripe", score := 1001 / 10000, box := (0, 0, 0, 0),
    box_relative := some [1 / 4, 1 / 4, 1 / 2, 1 / 2] }

/-- A detection with relative coordinates and score exactly `0.1`. -/
def dRelLo : Detection :=
  { label := "Ripe", score := 1 / 10, box := (0, 0, 0, 0),
    box_relative := some [1 / 4, 1 / 4, 1 / 2, 1 / 2] }

/-- Claim C1 counterexample: a detection carrying only absolute box
coordinates and score `0.5 > 0.1` gets no label from the streaming
renderer, so "label drawn iff score > 0.1 regardless of relative or
absolute coordinates" is false. -/
theorem C1_counterexample :
    ¬ (labelDrawn 100 100 dAbs = true ↔ dAbs.score > 1 / 10) := by
  norm_num [labelDrawn, drawDetection, dAbs, isFillText]

/-- Claim C1 (amended): the streaming renderer draws the text label for a
detection iff `box_relative` is present with exactly 4 entries AND the
score is strictly greater than `0.1`; in the absolute-coordinate fallback
no label is ever drawn. -/
theorem C1_amended (W H : ℚ) (d : Detection) :
    labelDrawn W H d = true ↔ (hasRelBox d = true ∧ d.score > 1 / 10) := by
  obtain ⟨lbl, sc, ⟨q1, q2, q3, q4⟩, rel⟩ := d
  rcases rel with _ | (_ | ⟨a, _ | ⟨b, _ | ⟨c, _ | ⟨e, _ | ⟨f, rest⟩⟩⟩⟩⟩)
  all_goals by_cases hsc : (10 : ℚ)⁻¹ < sc <;>
    simp [labelDrawn, drawDetection, hasRelBox, isFillText, hsc]

/-- Claim C1 witness: with relative coordinates present, score `0.1001`
draws a label and score exactly `0.1` does not. -/
theorem C1_witness :
    labelDrawn 100 100 dRelHi = true ∧ labelDrawn 100 100 dRelLo = false := by
  constructor
  · exact (C1_amended 100 100 dRelHi).mpr ⟨rfl, by norm_num [dRelHi]⟩
  · have h : ¬ labelDrawn 100 100 dRelLo = true := fun hb =>
      absurd ((C1_amended 100 100 dRelLo).mp hb).2 (by norm_num [dRelLo])
    simpa using h

/-- Claim C5: with `box_relative = [rx1, ry1, rx2, ry2]` present, the
stroked rectangle's corners are each relative coordinate times the current
canvas dimensions, and rendering at canvas size `(2W, 2H)` yields corners
exactly double those at `(W, H)`. -/
theorem C5_thm (W H rx1 ry1 rx2 ry2 : ℚ) (d : Detection)
    (h : d.box_relative = some [rx1, ry1, rx2, ry2]) :
    cornersOf (drawDetection W H d) = some (rx1 * W, ry1 * H, rx2 * W, ry2 * H) ∧
    cornersOf (drawDetection (2 * W) (2 * H) d) =
      some (2 * (rx1 * W), 2 * (ry1 * H), 2 * (rx2 * W), 2 * (ry2 * H)) := by
  unfold drawDetection
  rw [h]
  refine ⟨?_, ?_⟩ <;>
  · simp only [cornersOf, Option.some.injEq, Prod.mk.injEq]
    refine ⟨?_, ?_, ?_, ?_⟩ <;> first
      | trivial
      | ring1

/-- Claim C5 witness: the relative box `[1/4, 1/4, 1/2, 1/2]` rendered at
`100 × 50` and at `200 × 100` gives exactly doubled corners. -/
theorem C5_witness :
    cornersOf (drawDetection 100 50 dRelHi) =
      some (1 / 4 * 100, 1 / 4 * 50, 1 / 2 * 100, 1 / 2 * 50) ∧
    cornersOf (drawDetection (2 * 100) (2 * 50) dRelHi) =
      some (2 * (1 / 4 * 100), 2 * (1 / 4 * 50), 2 * (1 / 2 * 100), 2 * (1 / 2 * 50)) :=
  C5_thm 100 50 (1 / 4) (1 / 4) (1 / 2) (1 / 2) dRelHi rfl

/-- The client's handle on a socket.io connection; `connected` is the
library-maintained `socket.connected` flag. -/
structure SocketHandle where
  connected : Bool
deriving DecidableEq

/-- The mutable page state touched by the camera lifecycle of
`static/script.js` (streaming version): the module-level variables
`videoStream`, `detectionInterval`, `cameraStarted`, `socket`, the video
element's `srcObject` and readiness, and the `display` style of the scan
placeholder image, scan title, camera container and canvas. -/
structure CameraState where
  videoStream : Option Nat
  videoSrcObject : Option Nat
  videoReady : Bool
  detectionInterval : Option Nat
  cameraStarted : Bool
  socket : Option SocketHandle
  scanImageDisplay : String
  scanTitleDisplay : String
  cameraContainerDisplay : String
  canvasDisplay : String
deriving DecidableEq

/-- Page state on load: all handles `undefined`, `cameraStarted = false`,
scan placeholder visible, camera container and canvas hidden. -/
def initialCameraState : CameraState :=
  { videoStream := none
    videoSrcObject := none
    videoReady := false
    detectionInterval := none
    cameraStarted := false
    socket := none
    scanImageDisplay := "block"
    scanTitleDisplay := "block"
    cameraContainerDisplay := "none"
    canvasDisplay := "none" }

/-- Truthiness of `socket && socket.connected`
(`static/script.js` lines 427 and 480). -/
def socketLive : Option SocketHandle → Bool
  | some sk => sk.connected
  | none => false

/-- The synchronous part of `openCamera` (`static/script.js` lines
334-346): hide the scan image and title, show the camera container, and
create the WebSocket with `socket = io()` (not yet connected; the
`connect` event fires later).  `getUserMedia` is started afterwards and
resolves asynchronously. -/
def openCameraSync (s : CameraState) : CameraState :=
  { s with
    scanImageDisplay := "none"
    scanTitleDisplay := "none"
    cameraContainerDisplay := "block"
    socket := some { connected := false } }

/-- Result of the `getUserMedia` failure callback: the new page state plus
whether the handler alerted the user and logged the error. -/
structure ErrorHandlerResult where
  state : CameraState
  alerted : Bool
  logged : Bool
deriving DecidableEq

/-- The `getUserMedia` `.catch` handler of `openCamera`
(`static/script.js` lines 401-406): log the error, alert the user, and set
the scan image and scan title back to `display: block`.  Nothing else is
touched; in particular `cameraContainer.style.display` keeps whatever
value it had. -/
def onCameraError (s : CameraState) : ErrorHandlerResult :=
  { state := { s with scanImageDisplay := "block", scanTitleDisplay := "block" }
    alerted := true
    logged := true }

/-- `closeCamera` (`static/script.js` lines 409-439): restore the scan
placeholder, stop and null the video stream if present, disconnect and
null the socket only if `socket && socket.connected`, hide the camera
container and canvas, clear the detection interval and reset
`cameraStarted`. -/
def closeCamera (s : CameraState) : CameraState :=
  let s1 := { s with scanImageDisplay := "block", scanTitleDisplay := "block" }
  let s2 :=
    match s1.videoStream with
    | some _ => { s1 with videoSrcObject := none, videoStream := none }
    | none => s1
  let s3 :=
    match s2.socket with
    | some sk => if sk.connected then { s2 with socket := none } else s2
    | none => s2
  { s3 with
    cameraContainerDisplay := "none"
    canvasDisplay := "none"
    detectionInterval := none
    cameraStarted := false }

/-- A frame emitted on the `detect_video_frame` stream: the encoding
passed to `canvas.toDataURL` in `captureFrameAndSend`. -/
structure EmittedFrame where
  format : String
  quality : ℚ
deriving DecidableEq

/-- `captureFrameAndSend` (`static/script.js` lines 475-503): when the
video has enough data AND `socket && socket.connected` AND `cameraStarted`,
encode the frame as JPEG at quality 0.8 and emit it; otherwise, when
`cameraStarted` is false while `detectionInterval` is still set, clear the
interval; otherwise do nothing. -/
def captureFrameAndSend (s : CameraState) : Option EmittedFrame × CameraState :=
  if s.videoReady && socketLive s.socket && s.cameraStarted then
    (some { format := "image/jpeg", quality := 8 / 10 }, s)
  else if !s.cameraStarted && s.detectionInterval.isSome then
    (none, { s with detectionInterval := none })
  else
    (none, s)

/-- A streaming state where everything needed for a frame emission holds. -/
def s6 : CameraState :=
  { initialCameraState with
    videoReady := true
    cameraStarted := true
    socket := some { connected := true }
    detectionInterval := some 1 }

/-- A state whose started flag is false while the sampling timer is
still active. -/
def s7 : CameraState :=
  { initialCameraState with detectionInterval := some 5 }

/-- Claim C2 counterexample: `openCamera` creates the socket before it is
connected, so running `closeCamera` twice in a row right after `openCamera`
leaves the socket handle non-null (the `socket && socket.connected` guard
skips the nulling). -/
theorem C2_counterexample :
    (closeCamera (closeCamera (openCameraSync initialCameraState))).socket ≠ none := by
  decide

/-- Claim C2 (amended): `closeCamera` is a total function (never throws)
from any state, including before any `openCamera`; it always leaves
`cameraStarted = false`, `videoStream = null` and `detectionInterval =
null`, but it nulls the socket handle exactly when the socket was already
absent or was connected — an existing but disconnected socket survives the
close as a stale non-null handle. -/
theorem C2_amended (s : CameraState) :
    (closeCamera s).cameraStarted = false ∧
    (closeCamera s).videoStream = none ∧
    (closeCamera s).detectionInterval = none ∧
    ((closeCamera s).socket = none ↔ (s.socket = none ∨ socketLive s.socket = true)) := by
  obtain ⟨vs, vso, vr, di, cs, sk, a1, a2, a3, a4⟩ := s
  rcases vs with _ | v <;> rcases sk with _ | ⟨⟨c⟩⟩ <;> try cases c
  all_goals simp [closeCamera, socketLive]

/-- Claim C2 witness: from the initial state (no socket at all) the close
does null the socket handle. -/
theorem C2_witness : (closeCamera initialCameraState).socket = none :=
  (C2_amended initialCameraState).2.2.2.mpr (Or.inl rfl)

/-- Claim C6: a sampler tick emits a JPEG frame at quality 0.8 iff the
video has enough data AND the socket exists and is connected AND
`cameraStarted` is true; and whenever `cameraStarted` is still true the
tick leaves the whole state unchanged (silent no-op on failure). -/
theorem C6_thm (s : CameraState) :
    ((captureFrameAndSend s).1 = some { format := "image/jpeg", quality := 8 / 10 } ↔
      (s.videoReady = true ∧ socketLive s.socket = true ∧ s.cameraStarted = true)) ∧
    (s.cameraStarted = true → (captureFrameAndSend s).2 = s) := by
  obtain ⟨vs, vso, vr, di, cs, sk, a1, a2, a3, a4⟩ := s
  cases vr <;> cases cs <;> rcases di with _ | n <;> rcases sk with _ | ⟨⟨c⟩⟩ <;> try cases c
  all_goals simp [captureFrameAndSend, socketLive]

/-- Claim C6 witness: in a fully live state the tick emits the frame and
leaves the state unchanged. -/
theorem C6_witness :
    (captureFrameAndSend s6).1 = some { format := "image/jpeg", quality := 8 / 10 } ∧
    (captureFrameAndSend s6).2 = s6 :=
  ⟨(C6_thm s6).1.mpr ⟨rfl, rfl, rfl⟩, (C6_thm s6).2 rfl⟩

/-- Claim C7: if the started flag is false while the sampling timer is
still active, the next tick emits nothing and clears its own timer
(`clearInterval` plus `detectionInterval = null`). -/
theorem C7_thm (s : CameraState) (h1 : s.cameraStarted = false)
    (h2 : s.detectionInterval.isSome = true) :
    (captureFrameAndSend s).1 = none ∧
    (captureFrameAndSend s).2.detectionInterval = none := by
  simp [captureFrameAndSend, h1, h2]

/-- Claim C7 witness: a concrete dead-session state with an active timer
self-cancels on the next tick. -/
theorem C7_witness :
    (captureFrameAndSend s7).1 = none ∧
    (captureFrameAndSend s7).2.detectionInterval = none :=
  C7_thm s7 rfl rfl

/-- Claim C9 counterexample: after `openCamera` shows the camera container
and `getUserMedia` then fails, the failure callback restores the scan
placeholder but leaves `cameraContainer.style.display = "block"` — the
camera view stays displayed. -/
theorem C9_counterexample :
    (onCameraError (openCameraSync initialCameraState)).state.cameraContainerDisplay
        = "block" ∧
    (onCameraError (openCameraSync initialCameraState)).state.cameraContainerDisplay
        ≠ "none" := by
  exact ⟨rfl, by decide⟩

/-- Claim C9 (amended): the `getUserMedia` failure callback never throws
(it is total), alerts the user and logs the error, and restores the scan
image and scan title to `display: block`; but it does not touch the camera
container, whose display value is left exactly as it was (i.e. `"block"`
after an `openCamera`). -/
theorem C9_amended (s : CameraState) :
    (onCameraError s).alerted = true ∧
    (onCameraError s).logged = true ∧
    (onCameraError s).state.scanImageDisplay = "block" ∧
    (onCameraError s).state.scanTitleDisplay = "block" ∧
    (onCameraError s).state.cameraContainerDisplay = s.cameraContainerDisplay :=
  ⟨rfl, rfl, rfl, rfl, rfl⟩

/-- Claim C9 witness: the failure callback on the initial state alerts,
logs and restores the placeholder. -/
theorem C9_witness :
    (onCameraError initialCameraState).alerted = true ∧
    (onCameraError initialCameraState).state.scanImageDisplay = "block" :=
  ⟨(C9_amended initialCameraState).1, (C9_amended initialCameraState).2.2.1⟩

/-- An assessment record as served by `/get_assessment_data` and consumed
by the statistics script (`src/unnamed/part_000`): the parsed timestamp in
milliseconds, the stored assessment label, confidence and source. -/
structure Record where
  timestamp : ℤ
  assessment : String
  confidence : ℚ
  source : String
deriving DecidableEq

/-- The `TIME_THRESHOLD` constant of `groupByScanSession`
(`src/unnamed/part_000` line 117): 5 seconds in milliseconds. -/
def TIME_THRESHOLD : ℤ := 5000

/-- Stable insertion of a record into a timestamp-sorted list: it goes
before the first strictly later record. -/
def insertByTs (r : Record) : List Record → List Record
  | [] => [r]
  | x :: xs => if r.timestamp < x.timestamp then r :: x :: xs else x :: insertByTs r xs

/-- The `[...data].sort((a, b) => new Date(a.timestamp) - new Date(b.timestamp))`
of `groupByScanSession` (`src/unnamed/part_000` lines 120-122): a stable
sort by timestamp. -/
def sortByTs (data : List Record) : List Record :=
  data.foldl (fun acc r => insertByTs r acc) []

/-- `sessions[currentSession].push(item)`: append the record to the most
recently opened session. -/
def appendToLast (item : Record) : List (List Record) → List (List Record)
  | [] => []
  | [s] => [s ++ [item]]
  | s :: t :: rest => s :: appendToLast item (t :: rest)

/-- One step of the `forEach` loop of `groupByScanSession`
(`src/unnamed/part_000` lines 127-138).  The accumulator is the session
list so far plus the current session's start time (`sessionStartTime`,
`none` while `currentSession` is still null).  A record whose timestamp
exceeds the session START by more than `TIME_THRESHOLD` opens a new
session; otherwise it is pushed onto the current session. -/
def sessionStep (acc : List (List Record) × Option ℤ) (item : Record) :
    List (List Record) × Option ℤ :=
  match acc.2 with
  | none => (acc.1 ++ [[item]], some item.timestamp)
  | some sessionStartTime =>
    if item.timestamp - sessionStartTime > TIME_THRESHOLD then
      (acc.1 ++ [[item]], some item.timestamp)
    else
      (appendToLast item acc.1, acc.2)

/-- `groupByScanSession` (`src/unnamed/part_000` lines 115-141): sort by
timestamp, then fold the records into sessions.  The JS object keyed by
session start time is modelled as the list of sessions in creation order
(keys are pairwise distinct because session starts strictly increase). -/
def groupByScanSession (data : List Record) : List (List Record) :=
  ((sortByTs data).foldl sessionStep ([], none)).1

/-- Start-anchored grouping of an already sorted list, written
structurally: a record joins the current session iff its timestamp is
within `TIME_THRESHOLD` of the session's FIRST record, else it starts a
new session. -/
def anchorGo (start : ℤ) (cur : List Record) : List Record → List (List Record)
  | [] => [cur]
  | x :: xs =>
    if x.timestamp - start > TIME_THRESHOLD then cur :: anchorGo x.timestamp [x] xs
    else anchorGo start (cur ++ [x]) xs

/-- Start-anchored session grouping of a sorted record list. -/
def anchorGroups : List Record → List (List Record)
  | [] => []
  | r :: rs => anchorGo r.timestamp [r] rs

/-- Whether the records with timestamps `t1` and `t2` land in the same
scan session of `data`. -/
def inSameSession (data : List Record) (t1 t2 : ℤ) : Bool :=
  (groupByScanSession data).any fun sess =>
    (sess.any fun r => r.timestamp == t1) && (sess.any fun r => r.timestamp == t2)

/-- JavaScript `String.prototype.toLowerCase()` on the ASCII labels used
by the statistics page. -/
def jsToLowerCase (s : String) : String :=
  String.mk (s.data.map Char.toLower)

/-- `getStatusClass` (`src/unnamed/part_000` lines 155-166): lower-case
the assessment and map the three known labels to their status classes,
everything else to `unknown`. -/
def getStatusClass (assessment : String) : String :=
  if jsToLowerCase assessment = "ready for harvesting" then "ready"
  else if jsToLowerCase assessment = "not ready for harvesting" then "not-ready"
  else if jsToLowerCase assessment = "rotten" then "rotten"
  else "unknown"

/-- The per-status count built by the `reduce` of `updateStatistics`
(`src/unnamed/part_000` lines 81-85): how many records map to the given
status class. -/
def countStatus (data : List Record) (status : String) : ℕ :=
  (data.filter fun item => getStatusClass item.assessment = status).length

/-- The `Average Kaong per Session` statistic of `updateStatistics`
(`src/unnamed/part_000` line 101): record count divided by session
count. -/
def avgKaongPerSession (data : List Record) : ℚ :=
  (data.length : ℚ) / ((groupByScanSession data).length : ℚ)

/-- Builds an assessment record with the given timestamp; the other fields
are irrelevant to grouping. -/
def recAt (t : ℤ) : Record :=
  { timestamp := t, assessment := "Ripe", confidence := 1, source := "camera" }

/-- Three records whose consecutive timestamp gaps are all 3000 ms. -/
def ex3 : List Record := [recAt 0, recAt 3000, recAt 6000]

/-- The five records of claim C4, timestamps `[0, 1000, 2000, 8000, 8500]`. -/
def ex4 : List Record :=
  [recAt 0, recAt 1000, recAt 2000, recAt 8000, recAt 8500]

/-- Outcome of one accepted static-image upload
(`static/script.js` lines 554-717): the detection round-trip succeeded,
the detection/server step failed (thrown error or non-ok response), or the
image file failed to decode (`img.onerror`). -/
inductive UploadOutcome where
  | success
  | detectError
  | decodeError
deriving DecidableEq

/-- Observable cleanup effects of the upload handler. -/
structure UploadEffects where
  urlRevoked : Bool
  inputReset : Bool
  previewShown : Bool
deriving DecidableEq

/-- The cleanup behaviour of the upload `change` listener
(`static/script.js` lines 554-717) after an image file is accepted: the
preview container is shown and an object URL is created; on success only
`cleanup()` runs (revoking the URL); on detection failure or decode
failure `closeUpload()` runs (hiding the preview and clearing the file
input) followed by `cleanup()`. -/
def uploadHandler (o : UploadOutcome) : UploadEffects :=
  let st : UploadEffects := { urlRevoked := false, inputReset := false, previewShown := true }
  match o with
  | UploadOutcome.success => { st with urlRevoked := true }
  | UploadOutcome.detectError =>
    { st with previewShown := false, inputReset := true, urlRevoked := true }
  | UploadOutcome.decodeError =>
    { st with previewShown := false, inputReset := true, urlRevoked := true }

/-- Appending to the last session commutes with an explicit last
element. -/
theorem appendToLast_app (x : Record) :
    ∀ (S : List (List Record)) (c : List Record),
      appendToLast x (S ++ [c]) = S ++ [c ++ [x]] := by
  intro S
  induction S with
  | nil => intro c; simp [appendToLast]
  | cons s T ih =>
    intro c
    cases T with
    | nil => simp [appendToLast]
    | cons t T2 => simpa [appendToLast] using ih c

/-- The fold of `groupByScanSession`, run from a state with finished
sessions `S`, current session `c` and session start `st`, produces `S`
followed by the start-anchored grouping of the rest. -/
theorem foldl_sessionStep (l : List Record) :
    ∀ (S : List (List Record)) (c : List Record) (st : ℤ),
      (l.foldl sessionStep (S ++ [c], some st)).1 = S ++ anchorGo st c l := by
  induction l with
  | nil => intro S c st; simp [anchorGo]
  | cons x xs ih =>
    intro S c st
    by_cases h : x.timestamp - st > TIME_THRESHOLD
    · have hstep : sessionStep (S ++ [c], some st) x = ((S ++ [c]) ++ [[x]], some x.timestamp) := by
        simp [sessionStep, h]
      calc ((x :: xs).foldl sessionStep (S ++ [c], some st)).1
          = (xs.foldl sessionStep ((S ++ [c]) ++ [[x]], some x.timestamp)).1 := by
            rw [List.foldl_cons, hstep]
        _ = (S ++ [c]) ++ anchorGo x.timestamp [x] xs := ih (S ++ [c]) [x] x.timestamp
        _ = S ++ anchorGo st c (x :: xs) := by simp [anchorGo, h]
    · have hstep : sessionStep (S ++ [c], some st) x = (S ++ [c ++ [x]], some st) := by
        simp [sessionStep, h, appendToLast_app]
      calc ((x :: xs).foldl sessionStep (S ++ [c], some st)).1
          = (xs.foldl sessionStep (S ++ [c ++ [x]], some st)).1 := by
            rw [List.foldl_cons, hstep]
        _ = S ++ anchorGo st (c ++ [x]) xs := ih S (c ++ [x]) st
        _ = S ++ anchorGo st c (x :: xs) := by simp [anchorGo, h]

/-- Claim C3 counterexample: in the records with timestamps
`[0, 3000, 6000]` every consecutive gap is 3000 ms ≤ 5000 ms, so the claim
puts the records at 3000 and 6000 in one session; `groupByScanSession`
separates them, because 6000 is more than 5000 ms after the session START
at 0. -/
theorem C3_counterexample :
    (recAt 6000).timestamp - (recAt 3000).timestamp ≤ TIME_THRESHOLD ∧
    inSameSession ex3 0 3000 = true ∧
    inSameSession ex3 3000 6000 = false := by decide

/-- Claim C3 (amended): `groupByScanSession` groups records by a
START-anchored rule, not by consecutive gaps: in timestamp order a record
joins the current session iff its timestamp is within 5000 ms of the
FIRST record of that session, and otherwise starts a new session. -/
theorem C3_amended (data : List Record) :
    groupByScanSession data = anchorGroups (sortByTs data) := by
  unfold groupByScanSession
  cases hs : sortByTs data with
  | nil => simp [anchorGroups]
  | cons r rs =>
    have h0 : sessionStep ([], none) r = ([[r]], some r.timestamp) := rfl
    rw [List.foldl_cons, h0]
    simpa [anchorGroups] using foldl_sessionStep rs [] [r] r.timestamp

/-- Claim C3 witness: the grouping equals the start-anchored grouping on
the concrete list `ex3`. -/
theorem C3_witness : groupByScanSession ex3 = anchorGroups (sortByTs ex3) :=
  C3_amended ex3

/-- Claim C4: grouping the records with timestamps
`[0, 1000, 2000, 8000, 8500]` gives exactly the two sessions
`{0, 1000, 2000}` and `{8000, 8500}`, and the average-records-per-session
statistic equals `5 / 2 = 2.5`. -/
theorem C4_thm :
    groupByScanSession ex4 =
      [[recAt 0, recAt 1000, recAt 2000], [recAt 8000, recAt 8500]] ∧
    (groupByScanSession ex4).length = 2 ∧
    avgKaongPerSession ex4 = 5 / 2 := by
  refine ⟨by decide, by decide, ?_⟩
  norm_num [avgKaongPerSession, groupByScanSession, sortByTs, insertByTs,
    sessionStep, appendToLast, ex4, recAt, TIME_THRESHOLD]

/-- Claim C8 counterexample: on the successful-detection path the handler
revokes the object URL but never resets the file input (only
`closeUpload()` clears it, and it is not called on success), so the same
file cannot be re-selected right after a successful upload. -/
theorem C8_counterexample :
    (uploadHandler UploadOutcome.success).urlRevoked = true ∧
    (uploadHandler UploadOutcome.success).inputReset = false := by decide

/-- Claim C8 (amended): every code path after an image file is accepted
revokes the temporary object URL, but only the detection-failure and
image-decode-failure paths also reset the file input's value; the
successful-detection path leaves the input value unchanged. -/
theorem C8_amended (o : UploadOutcome) :
    (uploadHandler o).urlRevoked = true ∧
    ((uploadHandler o).inputReset = true ↔ o ≠ UploadOutcome.success) := by
  cases o <;> simp [uploadHandler]

/-- Claim C8 witness: the detection-failure path both revokes the URL and
resets the input. -/
theorem C8_witness :
    (uploadHandler UploadOutcome.detectError).urlRevoked = true ∧
    (uploadHandler UploadOutcome.detectError).inputReset = true :=
  ⟨(C8_amended UploadOutcome.detectError).1,
    (C8_amended UploadOutcome.detectError).2.mpr (by decide)⟩

/-- Records removed by a filter that never touches the counted status
class do not change `countStatus`. -/
theorem countStatus_filter (p : Record → Bool) (st : String)
    (h : ∀ r, p r = false → getStatusClass r.assessment ≠ st) :
    ∀ data : List Record, countStatus data st = countStatus (data.filter p) st := by
  intro data
  induction data with
  | nil => rfl
  | cons r rs ih =>
    by_cases hp : p r = true
    · by_cases hq : getStatusClass r.assessment = st <;>
        simp [countStatus, List.filter_cons, hp, hq] at ih ⊢ <;> omega
    · have hpf : p r = false := by simpa using hp
      have hq := h r hpf
      simp [countStatus, List.filter_cons, hpf, hq] at ih ⊢
      exact ih

/-- Claim C10: `getStatusClass` maps exactly the case-insensitive strings
"ready for harvesting", "not ready for harvesting" and "rotten" to the
classes "ready", "not-ready" and "rotten", and every other label —
including the detection labels "Ripe" and "Unripe" — to "unknown"; hence
records stored with label "Ripe" or "Unripe" are counted in neither the
ready count nor the not-ready count. -/
theorem C10_thm :
    (∀ s : String, getStatusClass s = "ready" ↔ jsToLowerCase s = "ready for harvesting") ∧
    (∀ s : String,
      getStatusClass s = "not-ready" ↔ jsToLowerCase s = "not ready for harvesting") ∧
    (∀ s : String, getStatusClass s = "rotten" ↔ jsToLowerCase s = "rotten") ∧
    (∀ s : String, jsToLowerCase s ≠ "ready for harvesting" →
      jsToLowerCase s ≠ "not ready for harvesting" →
      jsToLowerCase s ≠ "rotten" → getStatusClass s = "unknown") ∧
    getStatusClass "Ripe" = "unknown" ∧
    getStatusClass "Unripe" = "unknown" ∧
    (∀ data : List Record,
      countStatus data "ready" =
        countStatus
          (data.filter fun r => !(r.assessment == "Ripe" || r.assessment == "Unripe"))
          "ready" ∧
      countStatus data "not-ready" =
        countStatus
          (data.filter fun r => !(r.assessment == "Ripe" || r.assessment == "Unripe"))
          "not-ready") := by
  have hexc : ∀ (st : String), st = "ready" ∨ st = "not-ready" →
      ∀ r : Record, (!(r.assessment == "Ripe" || r.assessment == "Unripe")) = false →
        getStatusClass r.assessment ≠ st := by
    intro st hst r hr
    by_cases h1 : r.assessment = "Ripe"
    · rcases hst with h2 | h2 <;> rw [h1, h2] <;> decide
    · by_cases h1b : r.assessment = "Unripe"
      · rcases hst with h2 | h2 <;> rw [h1b, h2] <;> decide
      · exfalso
        have hb1 : (r.assessment == "Ripe") = false := by simpa using h1
        have hb2 : (r.assessment == "Unripe") = false := by simpa using h1b
        rw [hb1, hb2] at hr
        simp at hr
  refine ⟨?_, ?_, ?_, ?_, by decide, by decide, ?_⟩
  · intro s
    unfold getStatusClass
    split_ifs with h1 h2 h3
    · exact iff_of_true rfl h1
    · exact iff_of_false (by simp) h1
    · exact iff_of_false (by simp) h1
    · exact iff_of_false (by simp) h1
  · intro s
    unfold getStatusClass
    split_ifs with h1 h2 h3
    · exact iff_of_false (by simp) (fun hB => by rw [h1] at hB; exact absurd hB (by simp))
    · exact iff_of_true rfl h2
    · exact iff_of_false (by simp) h2
    · exact iff_of_false (by simp) h2
  · intro s
    unfold getStatusClass
    split_ifs with h1 h2 h3
    · exact iff_of_false (by simp) (fun hB => by rw [h1] at hB; exact absurd hB (by simp))
    · exact iff_of_false (by simp) (fun hB => by rw [h2] at hB; exact absurd hB (by simp))
    · exact iff_of_true rfl h3
    · exact iff_of_false (by simp) h3
  · intro s h1 h2 h3
    unfold getStatusClass
    rw [if_neg h1, if_neg h2, if_neg h3]
  · intro data
    exact ⟨countStatus_filter _ _ (hexc "ready" (Or.inl rfl)) data,
      countStatus_filter _ _ (hexc "not-ready" (Or.inr rfl)) data⟩

/-- Claim C10 witness: a label outside the three known assessment strings
is classified "unknown", and on a concrete record list the "Ripe" records
change neither counted class. -/
theorem C10_witness :
    getStatusClass "Half-ripe" = "unknown" ∧
    countStatus [recAt 0] "ready" =
      countStatus
        (([recAt 0]).filter fun r => !(r.assessment == "Ripe" || r.assessment == "Unripe"))
        "ready" :=
  ⟨C10_thm.2.2.2.1 "Half-ripe" (by decide) (by decide) (by decide),
    (C10_thm.2.2.2.2.2.2 [recAt 0]).1⟩
